import Mathlib

/-!
# Verification of the seofrog report-consolidation engine

A shallow embedding of the issue-detection and report-consolidation code of
`seofrog/exporters` (the Excel exporter and its per-category sheet classes),
together with proofs about the embedded definitions.

Modelling conventions:
* A pandas `DataFrame` is a list of column names plus a list of rows; a row is
  an association list from column name to `Value`.  A record field that the
  crawler did not produce is simply absent from the row (pandas stores `NaN`
  there; `Value.vnan` models an explicit `NaN` cell).
* Numeric record fields (`title_length`, `h1_count`, `response_time`,
  `content_length`, ...) are modelled as integers: every threshold the rules
  compare against is integral, so the order facts used by the rules coincide.
* `df[col]` raises `KeyError` in pandas when the column is missing; functions
  whose source can hit that path return `Except String _`, and functions that
  guard every column access before using it are total.
* `row.get(col, default)` never raises; `NaN` cells behave like the default in
  every comparison the rules perform, which is how the getters treat them.
* Sorting: pandas `sort_values` on a key list is lexicographic ordering by the
  keys; the order of rows whose whole key tuple ties is not specified by the
  claims, and the embedding uses a stable insertion sort.
-/

/-- One entry of a structured mixed-content detail list: the crawler emits
dicts with a `type` and a `url` key (either may be missing). -/
structure MCItem where
  itemType : Option String
  itemUrl : Option String
  deriving DecidableEq, Repr

/-- A cell value of the audited dataset: string, integer, boolean, `NaN`, or a
structured detail list (only the mixed-content columns hold lists). -/
inductive Value where
  | vs (s : String)
  | vi (n : Int)
  | vb (b : Bool)
  | vnan
  | vitems (l : List MCItem)
  deriving DecidableEq, Repr

/-- A row of the dataset: association list from column name to cell value. -/
abbrev Row := List (String × Value)

/-- A pandas DataFrame: the column list plus the rows. -/
structure DataFrame where
  cols : List String
  rows : List Row
  deriving DecidableEq, Repr

/-- Embeds `row.get(c, d)` for a string-valued field: the string stored at `c`, or
`d` when the field is absent (or holds `NaN` / a non-string, which the audited
records never put in the string columns the rules read). -/
def getStrD (r : Row) (c d : String) : String :=
  match List.lookup c r with
  | some (.vs s) => s
  | _ => d

/-- Embeds `row.get(c, d)` for an integer-valued field; `NaN` cells behave like the
default in every comparison the rules make, so they are mapped to `d`. -/
def getIntD (r : Row) (c : String) (d : Int) : Int :=
  match List.lookup c r with
  | some (.vi n) => n
  | _ => d

/-- Embeds `df[c].fillna(d)` read row-wise for an integer column. -/
def colI (r : Row) (c : String) (d : Int) : Int := getIntD r c d

/-- Embeds `df[c].fillna('')` read row-wise for a string column. -/
def colS (r : Row) (c : String) : String := getStrD r c ""

/-- Embeds `df[c].fillna(b)` read row-wise for a boolean column. -/
def colB (r : Row) (c : String) (d : Bool) : Bool :=
  match List.lookup c r with
  | some (.vb b) => b
  | _ => d

/-- Embeds `row.get(c, [])` for a structured detail-list column; non-list cells are
skipped by the `isinstance(. , list)` check in the source, hence `[]`. -/
def getItems (r : Row) (c : String) : List MCItem :=
  match List.lookup c r with
  | some (.vitems l) => l
  | _ => []

/-- Embeds `BaseSheet._safe_filter` (base_sheet.py:27): empty DataFrame when the
column is absent, otherwise the rows satisfying the (row-wise) condition. -/
def safeFilterP (df : DataFrame) (c : String) (p : Row → Bool) : DataFrame :=
  if df.cols.contains c then ⟨df.cols, df.rows.filter p⟩ else ⟨[], []⟩

/-- Lexicographic `≤` on char lists by code point, the comparison Python uses
on `str` (and pandas uses for string sort keys). -/
def clistLe : List Char → List Char → Bool
  | [], _ => true
  | _ :: _, [] => false
  | a :: as, b :: bs =>
    if a.toNat < b.toNat then true
    else if b.toNat < a.toNat then false
    else clistLe as bs

/-- Python string `≤` (lexicographic by code point). -/
def pyStrLeB (a b : String) : Bool := clistLe a.data b.data

/-- ASCII lowering of one char; `str.lower()` restricted to ASCII, which is
all the URL classifiers feed it. -/
def asciiLower (c : Char) : Char :=
  if 'A' ≤ c ∧ c ≤ 'Z' then Char.ofNat (c.toNat + 32) else c

/-- ASCII uppering of one char. -/
def asciiUpper (c : Char) : Char :=
  if 'a' ≤ c ∧ c ≤ 'z' then Char.ofNat (c.toNat - 32) else c

/-- Embeds `s.lower()` (ASCII range). -/
def pyLower (s : String) : String := ⟨s.data.map asciiLower⟩

/-- Embeds `s.upper()` (ASCII range). -/
def pyUpper (s : String) : String := ⟨s.data.map asciiUpper⟩

/-- Python's `pat in s` substring test, on char lists. -/
def hasSub (l pat : List Char) : Bool :=
  match l with
  | [] => pat.isEmpty
  | _ :: t => pat.isPrefixOf l || hasSub t pat

/-- Embeds `pat in s` for strings. -/
def pyContains (s pat : String) : Bool := hasSub s.data pat.data

/-- Embeds `s.endswith(pat)`. -/
def pyEndsWith (s pat : String) : Bool := pat.data.isSuffixOf s.data

/-- Embeds `s.count(ch)` for a single character. -/
def pyCountChar (s : String) (ch : Char) : Nat := s.data.count ch

/-- Two-level lexicographic comparator: integer key first, `le2` on ties.
`sort_values([k, k2], ...)` compares exactly like this. -/
def lexB (k : α → Int) (le2 : α → α → Bool) (a b : α) : Bool :=
  decide (k a < k b) || (decide (k a = k b) && le2 a b)

/-- Stable sort by a boolean comparator (the embedding of `sort_values`). -/
def sortByB (le : α → α → Bool) (l : List α) : List α :=
  List.insertionSort (fun a b => le a b = true) l

/-- Worker for `dedupByKeys`: drop rows whose key was already seen. -/
def dedupByKeysAux [DecidableEq β] (key : α → β) (seen : List β) : List α → List α
  | [] => []
  | a :: as =>
    if key a ∈ seen then dedupByKeysAux key seen as
    else a :: dedupByKeysAux key (key a :: seen) as

/-- Embeds `drop_duplicates(subset=key, keep='first')`: keep the first row bearing
each key. -/
def dedupByKeys [DecidableEq β] (key : α → β) (l : List α) : List α :=
  dedupByKeysAux key [] l

/-- Embeds `BaseSheet._sort_by_criticality` criticality-to-rank map
(base_sheet.py:101-109); any label outside the five named ones gets rank 5
(`.map(criticality_order).fillna(5)`). -/
def rankOfCrit (s : String) : Int :=
  if s = "CRÍTICO MÁXIMO" then 0
  else if s = "CRÍTICO" then 1
  else if s = "ALTO" then 2
  else if s = "MÉDIO" then 3
  else if s = "BAIXO" then 4
  else 5

/-- Comparator of `_sort_by_criticality` (base_sheet.py:110):
`sort_values(['_sort_order', 'url'])`. -/
def rankUrlLe (crit url : α → String) : α → α → Bool :=
  lexB (fun x => rankOfCrit (crit x)) (fun x y => pyStrLeB (url x) (url y))

/-- Embeds `BaseSheet._sort_by_criticality` (base_sheet.py:96-111) applied to a list
of issues carrying `criticidade` and `url` projections. -/
def sortByCriticality (crit url : α → String) (l : List α) : List α :=
  sortByB (rankUrlLe crit url) l

/-! ## Title sheet (title_problems_sheet.py) -/

/-- One row of the 'Problemas Títulos' issue table (the dict built by the
`TitleProblemsSheet._find_*` rules). -/
structure TitleIssue where
  url : String
  problema : String
  criticidade : String
  title : String
  title_length : Int
  title_words : Int
  recomendacao : String
  impacto_seo : String
  deriving DecidableEq, Repr

/-- Embeds `TitleProblemsSheet._find_no_title_issues` (title_problems_sheet.py:44-64). -/
def findNoTitleIssues (df : DataFrame) : List TitleIssue :=
  if ¬ df.cols.contains "title" then [] else
  let noTitle := safeFilterP df "title" (fun r => colS r "title" == "")
  noTitle.rows.map fun r =>
    { url := getStrD r "url" ""
      problema := "Sem título"
      criticidade := "CRÍTICO"
      title := ""
      title_length := 0
      title_words := 0
      recomendacao := "Adicionar título único e descritivo (30-60 chars)"
      impacto_seo := "Muito alto - Título é fundamental para SEO" }

/-- Embeds `TitleProblemsSheet._find_long_title_issues` (title_problems_sheet.py:66-90):
flagged iff `title_length > 60`, `ALTO` iff `> 70` else `MÉDIO`. -/
def findLongTitleIssues (df : DataFrame) : List TitleIssue :=
  if ¬ df.cols.contains "title_length" then [] else
  let longTitles := safeFilterP df "title_length" (fun r => decide (60 < colI r "title_length" 0))
  longTitles.rows.map fun r =>
    let n := getIntD r "title_length" 0
    { url := getStrD r "url" ""
      problema := "Título muito longo (" ++ toString n ++ " chars)"
      criticidade := if 70 < n then "ALTO" else "MÉDIO"
      title := getStrD r "title" ""
      title_length := n
      title_words := getIntD r "title_words" 0
      recomendacao := "Reduzir em " ++ toString (n - 60) ++ " caracteres (ideal: 30-60)"
      impacto_seo := "Google pode truncar na SERP" }

/-- Embeds `TitleProblemsSheet._find_short_title_issues` (title_problems_sheet.py:92-117):
flagged iff `title_length < 30` (absent length treated as 100) and the title is
non-empty; always `MÉDIO`. -/
def findShortTitleIssues (df : DataFrame) : List TitleIssue :=
  if ¬ (df.cols.contains "title_length" && df.cols.contains "title") then [] else
  let shortTitles := safeFilterP df "title_length"
    (fun r => decide (colI r "title_length" 100 < 30) && !(colS r "title" == ""))
  shortTitles.rows.map fun r =>
    let n := getIntD r "title_length" 0
    { url := getStrD r "url" ""
      problema := "Título muito curto (" ++ toString n ++ " chars)"
      criticidade := "MÉDIO"
      title := getStrD r "title" ""
      title_length := n
      title_words := getIntD r "title_words" 0
      recomendacao := "Adicionar " ++ toString (30 - n) ++ " caracteres (ideal: 30-60)"
      impacto_seo := "Pouco aproveitamento do espaço na SERP" }

/-- Embeds `TitleProblemsSheet._find_duplicate_title_issues`
(title_problems_sheet.py:119-153): group the non-empty titles, flag every
member of a group of size ≥ 2, severity `ALTO` iff the group has more than 3
members.  `groupby` iterates groups in sorted key order. -/
def findDuplicateTitleIssues (df : DataFrame) : List TitleIssue :=
  if ¬ df.cols.contains "title" then [] else
  let nonEmpty := df.rows.filter (fun r => !(colS r "title" == ""))
  if nonEmpty.isEmpty then [] else
  let dup := nonEmpty.filter
    (fun r => decide (2 ≤ (nonEmpty.filter (fun x => colS x "title" == colS r "title")).length))
  let keys := sortByB pyStrLeB (dup.map (fun r => colS r "title")).dedup
  keys.flatMap fun t =>
    let group := dup.filter (fun r => colS r "title" == t)
    group.map fun r =>
      { url := getStrD r "url" ""
        problema := "Título duplicado (" ++ toString group.length ++ " páginas)"
        criticidade := if 3 < group.length then "ALTO" else "MÉDIO"
        title := t
        title_length := getIntD r "title_length" 0
        title_words := getIntD r "title_words" 0
        recomendacao := "Criar título único para cada página"
        impacto_seo := "Google pode não indexar todas as páginas" }

/-- The draft issue list accumulated by `TitleProblemsSheet.create_sheet`
(title_problems_sheet.py:15-38), in registration order. -/
def titleDrafts (df : DataFrame) : List TitleIssue :=
  findNoTitleIssues df ++ findLongTitleIssues df ++ findShortTitleIssues df ++
    findDuplicateTitleIssues df

/-- Embeds `TitleProblemsSheet._export_consolidated_issues`
(title_problems_sheet.py:155-174): drop duplicates on `(url, problema)`
keeping the first, then `_sort_by_criticality`. -/
def titleExportConsolidated (issues : List TitleIssue) : List TitleIssue :=
  sortByCriticality (fun i => i.criticidade) (fun i => i.url)
    (dedupByKeys (fun i => (i.url, i.problema)) issues)

/-- The second deduplication applied by `BaseSheet._export_dataframe`
(base_sheet.py:77-78): `drop_duplicates(subset=['url'], keep='first')` on the
already consolidated table. -/
def titleExportFinal (issues : List TitleIssue) : List TitleIssue :=
  dedupByKeys (fun i => i.url) (titleExportConsolidated issues)

/-! ## Meta-description sheet (meta_problems_sheet.py) -/

/-- One row of the 'Problemas Meta' issue table. -/
structure MetaIssue where
  url : String
  problema : String
  criticidade : String
  meta_description : String
  meta_description_length : Int
  recomendacao : String
  impacto_seo : String
  exemplo : String
  deriving DecidableEq, Repr

/-- Embeds `MetaProblemsSheet._find_no_meta_issues` (meta_problems_sheet.py:44-65). -/
def findNoMetaIssues (df : DataFrame) : List MetaIssue :=
  if ¬ df.cols.contains "meta_description" then [] else
  let noMeta := safeFilterP df "meta_description" (fun r => colS r "meta_description" == "")
  noMeta.rows.map fun _r =>
    { url := getStrD _r "url" ""
      problema := "Sem meta description"
      criticidade := "ALTO"
      meta_description := ""
      meta_description_length := 0
      recomendacao := "Adicionar meta description única (120-160 chars)"
      impacto_seo := "Google pode gerar snippet automaticamente"
      exemplo := "Descrição atrativa que resume o conteúdo da página" }

/-- Embeds `MetaProblemsSheet._find_long_meta_issues` (meta_problems_sheet.py:67-91):
flagged iff length `> 160`; `MÉDIO` iff length `< 180`, else `ALTO`. -/
def findLongMetaIssues (df : DataFrame) : List MetaIssue :=
  if ¬ df.cols.contains "meta_description_length" then [] else
  let longMeta := safeFilterP df "meta_description_length"
    (fun r => decide (160 < colI r "meta_description_length" 0))
  longMeta.rows.map fun r =>
    let n := getIntD r "meta_description_length" 0
    { url := getStrD r "url" ""
      problema := "Meta description muito longa (" ++ toString n ++ " chars)"
      criticidade := if n < 180 then "MÉDIO" else "ALTO"
      meta_description := getStrD r "meta_description" ""
      meta_description_length := n
      recomendacao := "Reduzir em " ++ toString (n - 160) ++ " caracteres (máximo: 160)"
      impacto_seo := "Google truncará na SERP com \"...\""
      exemplo := "Resumir mantendo as palavras-chave principais" }

/-- Embeds `MetaProblemsSheet._find_short_meta_issues` (meta_problems_sheet.py:93-118):
flagged iff length `< 120` (absent length treated as 200) and the description
is non-empty; always `BAIXO`. -/
def findShortMetaIssues (df : DataFrame) : List MetaIssue :=
  if ¬ (df.cols.contains "meta_description_length" && df.cols.contains "meta_description") then [] else
  let shortMeta := safeFilterP df "meta_description_length"
    (fun r => decide (colI r "meta_description_length" 200 < 120) && !(colS r "meta_description" == ""))
  shortMeta.rows.map fun r =>
    let n := getIntD r "meta_description_length" 0
    { url := getStrD r "url" ""
      problema := "Meta description muito curta (" ++ toString n ++ " chars)"
      criticidade := "BAIXO"
      meta_description := getStrD r "meta_description" ""
      meta_description_length := n
      recomendacao := "Expandir em " ++ toString (120 - n) ++ " caracteres (ideal: 120-160)"
      impacto_seo := "Pouco aproveitamento do espaço na SERP"
      exemplo := "Adicionar mais detalhes sobre o conteúdo" }

/-- Embeds `MetaProblemsSheet._find_duplicate_meta_issues`
(meta_problems_sheet.py:120-154): like duplicate titles, but severity `ALTO`
iff the group has more than 2 members. -/
def findDuplicateMetaIssues (df : DataFrame) : List MetaIssue :=
  if ¬ df.cols.contains "meta_description" then [] else
  let nonEmpty := df.rows.filter (fun r => !(colS r "meta_description" == ""))
  if nonEmpty.isEmpty then [] else
  let dup := nonEmpty.filter
    (fun r => decide (2 ≤ (nonEmpty.filter
      (fun x => colS x "meta_description" == colS r "meta_description")).length))
  let keys := sortByB pyStrLeB (dup.map (fun r => colS r "meta_description")).dedup
  keys.flatMap fun t =>
    let group := dup.filter (fun r => colS r "meta_description" == t)
    group.map fun r =>
      { url := getStrD r "url" ""
        problema := "Meta description duplicada (" ++ toString group.length ++ " páginas)"
        criticidade := if 2 < group.length then "ALTO" else "MÉDIO"
        meta_description := t
        meta_description_length := getIntD r "meta_description_length" 0
        recomendacao := "Criar meta description única para cada página"
        impacto_seo := "Google pode não distinguir o conteúdo das páginas"
        exemplo := "Destacar o diferencial específico de cada página" }

/-- Embeds `MetaProblemsSheet._export_consolidated_issues`
(meta_problems_sheet.py:156-175): dedup on `(url, problema)` then
`_sort_by_criticality`. -/
def metaExportConsolidated (issues : List MetaIssue) : List MetaIssue :=
  sortByCriticality (fun i => i.criticidade) (fun i => i.url)
    (dedupByKeys (fun i => (i.url, i.problema)) issues)

/-! ## Heading sheet (heading_problems_sheet.py) -/

/-- One row of the 'Problemas Headings' issue table. -/
structure HeadIssue where
  url : String
  problema : String
  criticidade : String
  h1_count : Int
  h1_text : String
  h2_count : Int
  h3_count : Int
  estrutura_headings : String
  recomendacao : String
  impacto_seo : String
  deriving DecidableEq, Repr

/-- Embeds `HeadingProblemsSheet._get_heading_structure`
(heading_problems_sheet.py:198-207). -/
def headingStructure (r : Row) : String :=
  let parts := ([1, 2, 3, 4, 5, 6] : List Nat).filterMap fun lv =>
    let c := getIntD r ("h" ++ toString lv ++ "_count") 0
    if 0 < c then some ("H" ++ toString lv ++ ":" ++ toString c) else none
  if parts.isEmpty then "Sem headings" else String.intercalate " | " parts

/-- Embeds `HeadingProblemsSheet._find_no_h1_issues` (heading_problems_sheet.py:48-70):
`h1_count == 0` is `Sem H1` / `CRÍTICO`.  This sheet has no rule producing a
`Sem H1 E sem H2` label. -/
def headingFindNoH1 (df : DataFrame) : List HeadIssue :=
  if ¬ df.cols.contains "h1_count" then [] else
  let noH1 := safeFilterP df "h1_count" (fun r => decide (colI r "h1_count" 0 = 0))
  noH1.rows.map fun r =>
    { url := getStrD r "url" ""
      problema := "Sem H1"
      criticidade := "CRÍTICO"
      h1_count := 0
      h1_text := ""
      h2_count := getIntD r "h2_count" 0
      h3_count := getIntD r "h3_count" 0
      estrutura_headings := headingStructure r
      recomendacao := "Adicionar H1 único e descritivo para a página"
      impacto_seo := "Muito alto - H1 é fundamental para SEO" }

/-- Embeds `HeadingProblemsSheet._find_multiple_h1_issues`
(heading_problems_sheet.py:72-96). -/
def headingFindMultipleH1 (df : DataFrame) : List HeadIssue :=
  if ¬ df.cols.contains "h1_count" then [] else
  let multH1 := safeFilterP df "h1_count" (fun r => decide (1 < colI r "h1_count" 0))
  multH1.rows.map fun r =>
    let n := getIntD r "h1_count" 0
    { url := getStrD r "url" ""
      problema := "Múltiplos H1 (" ++ toString n ++ " H1s)"
      criticidade := "ALTO"
      h1_count := n
      h1_text := getStrD r "h1_text" ""
      h2_count := getIntD r "h2_count" 0
      h3_count := getIntD r "h3_count" 0
      estrutura_headings := headingStructure r
      recomendacao := "Manter apenas 1 H1, converter outros " ++ toString (n - 1) ++ " para H2"
      impacto_seo := "Confunde hierarquia e importância do conteúdo" }

/-- Embeds `HeadingProblemsSheet._find_no_h2_issues` (heading_problems_sheet.py:98-123):
only rows that do have an H1 are flagged (`MÉDIO`). -/
def headingFindNoH2 (df : DataFrame) : List HeadIssue :=
  if ¬ df.cols.contains "h2_count" then [] else
  let noH2 := safeFilterP df "h2_count" (fun r => decide (colI r "h2_count" 0 = 0))
  noH2.rows.filterMap fun r =>
    let h1 := getIntD r "h1_count" 0
    if 0 < h1 then
      some { url := getStrD r "url" ""
             problema := "Sem H2 (estrutura incompleta)"
             criticidade := "MÉDIO"
             h1_count := h1
             h1_text := getStrD r "h1_text" ""
             h2_count := 0
             h3_count := getIntD r "h3_count" 0
             estrutura_headings := headingStructure r
             recomendacao := "Adicionar H2s para estruturar o conteúdo"
             impacto_seo := "Estrutura de conteúdo pouco clara" }
    else none

/-- Embeds `HeadingProblemsSheet._find_hierarchy_issues`
(heading_problems_sheet.py:125-170): level N present while level N-1 absent,
for N = 3..6; one `MÉDIO` issue per row listing the broken pairs. -/
def headingFindHierarchy (df : DataFrame) : List HeadIssue :=
  df.rows.filterMap fun r =>
    let h1 := getIntD r "h1_count" 0
    let h2 := getIntD r "h2_count" 0
    let h3 := getIntD r "h3_count" 0
    let h4 := getIntD r "h4_count" 0
    let h5 := getIntD r "h5_count" 0
    let h6 := getIntD r "h6_count" 0
    let probs :=
      (if 0 < h3 ∧ h2 = 0 then ["H3 sem H2"] else []) ++
      (if 0 < h4 ∧ h3 = 0 then ["H4 sem H3"] else []) ++
      (if 0 < h5 ∧ h4 = 0 then ["H5 sem H4"] else []) ++
      (if 0 < h6 ∧ h5 = 0 then ["H6 sem H5"] else [])
    if probs.isEmpty then none
    else
      some { url := getStrD r "url" ""
             problema := "Hierarquia quebrada: " ++ String.intercalate ", " probs
             criticidade := "MÉDIO"
             h1_count := h1
             h1_text := getStrD r "h1_text" ""
             h2_count := h2
             h3_count := h3
             estrutura_headings := headingStructure r
             recomendacao := "Corrigir hierarquia: cada nível deve ter o anterior"
             impacto_seo := "Estrutura confusa para crawlers e usuários" }

/-- Embeds `HeadingProblemsSheet._find_long_h1_issues`
(heading_problems_sheet.py:172-196): `h1_length > 70` is `BAIXO`. -/
def headingFindLongH1 (df : DataFrame) : List HeadIssue :=
  if ¬ df.cols.contains "h1_length" then [] else
  let longH1 := safeFilterP df "h1_length" (fun r => decide (70 < colI r "h1_length" 0))
  longH1.rows.map fun r =>
    let n := getIntD r "h1_length" 0
    { url := getStrD r "url" ""
      problema := "H1 muito longo (" ++ toString n ++ " chars)"
      criticidade := "BAIXO"
      h1_count := getIntD r "h1_count" 0
      h1_text := getStrD r "h1_text" ""
      h2_count := getIntD r "h2_count" 0
      h3_count := getIntD r "h3_count" 0
      estrutura_headings := headingStructure r
      recomendacao := "Encurtar H1 para 30-70 caracteres"
      impacto_seo := "H1s longos podem perder foco nas palavras-chave" }

/-- The draft issue list of `HeadingProblemsSheet.create_sheet`
(heading_problems_sheet.py:15-46), in registration order. -/
def headingDrafts (df : DataFrame) : List HeadIssue :=
  headingFindNoH1 df ++ headingFindMultipleH1 df ++ headingFindNoH2 df ++
    headingFindHierarchy df ++ headingFindLongH1 df

/-- Embeds `HeadingProblemsSheet._export_consolidated_issues`
(heading_problems_sheet.py:209-228): dedup on `(url, problema)`, then
`_sort_by_criticality`. -/
def headingExportConsolidated (issues : List HeadIssue) : List HeadIssue :=
  sortByCriticality (fun i => i.criticidade) (fun i => i.url)
    (dedupByKeys (fun i => (i.url, i.problema)) issues)

/-- The rows the 'Problemas Headings' sheet finally exports, after the second
per-url deduplication of `BaseSheet._export_dataframe` (base_sheet.py:77-78). -/
def headingExportFinal (df : DataFrame) : List HeadIssue :=
  dedupByKeys (fun i => i.url) (headingExportConsolidated (headingDrafts df))

/-! ## Page-type classifiers -/

/-- Embeds `H1H2MissingSheet._detect_page_type` (h1_h2_missing_sheet.py:122-139),
on the raw URL (the method lowercases it first). -/
def h1h2PageTypeOfUrl (url : String) : String :=
  let u := pyLower url
  if pyContains u "/blog/" || pyContains u "/artigo/" then "Blog/Artigo"
  else if pyContains u "/produto/" || pyContains u "/product/" then "Produto"
  else if pyContains u "/categoria/" || pyContains u "/category/" then "Categoria"
  else if pyContains u "/sobre" || pyContains u "/about" then "Institucional"
  else if pyContains u "/contato" || pyContains u "/contact" then "Contato"
  else if pyEndsWith u "/" && decide (pyCountChar u '/' ≤ 3) then "Homepage"
  else "Conteúdo"

/-- Embeds `TechnicalProblemsSheet._detect_page_type`
(technical_problems_sheet.py:284-301): as the H1/H2 one, but `/post/` also
counts as a blog segment. -/
def technicalPageTypeOfUrl (url : String) : String :=
  let u := pyLower url
  if pyContains u "/blog/" || pyContains u "/artigo/" || pyContains u "/post/" then "Blog/Artigo"
  else if pyContains u "/produto/" || pyContains u "/product/" then "Produto"
  else if pyContains u "/categoria/" || pyContains u "/category/" then "Categoria"
  else if pyContains u "/sobre" || pyContains u "/about" then "Institucional"
  else if pyContains u "/contato" || pyContains u "/contact" then "Contato"
  else if pyEndsWith u "/" && decide (pyCountChar u '/' ≤ 3) then "Homepage"
  else "Conteúdo"

/-- Embeds `PerformanceSheet._detect_page_type` (performance_sheet.py:257-270): no
institutional and no contact checks. -/
def performancePageTypeOfUrl (url : String) : String :=
  let u := pyLower url
  if pyContains u "/blog/" || pyContains u "/artigo/" then "Blog/Artigo"
  else if pyContains u "/produto/" || pyContains u "/product/" then "Produto"
  else if pyContains u "/categoria/" || pyContains u "/category/" then "Categoria"
  else if pyEndsWith u "/" && decide (pyCountChar u '/' ≤ 3) then "Homepage"
  else "Conteúdo"

/-- Embeds `ImageProblemsSheet._detect_page_type` (image_problems_sheet.py:210-225):
has an extra `Galeria` outcome and no contact and no homepage checks. -/
def imagePageTypeOfUrl (url : String) : String :=
  let u := pyLower url
  if pyContains u "/blog/" || pyContains u "/artigo/" then "Blog/Artigo"
  else if pyContains u "/produto/" || pyContains u "/product/" then "Produto"
  else if pyContains u "/categoria/" || pyContains u "/category/" then "Categoria"
  else if pyContains u "/galeria/" || pyContains u "/gallery/" then "Galeria"
  else if pyContains u "/sobre" || pyContains u "/about" then "Institucional"
  else "Conteúdo"

/-- The seven page-type tags named by the specification
(`Blog/Article, Product, Category, Institutional, Contact, Homepage, Content`
in the source's Portuguese labels). -/
def sevenPageTypes : List String :=
  ["Blog/Artigo", "Produto", "Categoria", "Institucional", "Contato", "Homepage", "Conteúdo"]

/-! ## H1/H2-focused sheet (h1_h2_missing_sheet.py) -/

/-- One row of the 'H1 H2 Ausentes' issue table. -/
structure H1H2Issue where
  url : String
  problema_h1_h2 : String
  criticidade : String
  prioridade : Int
  h1_count : Int
  h1_text : String
  h2_count : Int
  title : String
  page_type : String
  action_required : String
  business_impact : String
  technical_fix : String
  deriving DecidableEq, Repr

/-- Embeds `H1H2MissingSheet._find_no_h1_issues` (h1_h2_missing_sheet.py:40-64):
`Sem H1` / `CRÍTICO`, prioridade 1. -/
def h1h2FindNoH1 (df : DataFrame) : List H1H2Issue :=
  if ¬ df.cols.contains "h1_count" then [] else
  let noH1 := safeFilterP df "h1_count" (fun r => decide (colI r "h1_count" 0 = 0))
  noH1.rows.map fun r =>
    { url := getStrD r "url" ""
      problema_h1_h2 := "Sem H1"
      criticidade := "CRÍTICO"
      prioridade := 1
      h1_count := 0
      h1_text := ""
      h2_count := getIntD r "h2_count" 0
      title := getStrD r "title" ""
      page_type := h1h2PageTypeOfUrl (getStrD r "url" "")
      action_required := "URGENTE: Adicionar H1 único"
      business_impact := "SEO comprometido - Página não será bem rankeada"
      technical_fix := "<h1>Título Principal da Página</h1>" }

/-- Embeds `H1H2MissingSheet._find_no_h2_issues` (h1_h2_missing_sheet.py:66-93):
`Sem H2` / `ALTO`, prioridade 2, only for rows that do have an H1. -/
def h1h2FindNoH2 (df : DataFrame) : List H1H2Issue :=
  if ¬ df.cols.contains "h2_count" then [] else
  let noH2 := safeFilterP df "h2_count" (fun r => decide (colI r "h2_count" 0 = 0))
  noH2.rows.filterMap fun r =>
    let h1 := getIntD r "h1_count" 0
    if 0 < h1 then
      some { url := getStrD r "url" ""
             problema_h1_h2 := "Sem H2"
             criticidade := "ALTO"
             prioridade := 2
             h1_count := h1
             h1_text := getStrD r "h1_text" ""
             h2_count := 0
             title := getStrD r "title" ""
             page_type := h1h2PageTypeOfUrl (getStrD r "url" "")
             action_required := "Adicionar H2s para estruturar conteúdo"
             business_impact := "Estrutura de conteúdo confusa para usuários"
             technical_fix := "<h2>Seção Principal</h2> + subsections" }
    else none

/-- Embeds `H1H2MissingSheet._find_no_h1_h2_issues` (h1_h2_missing_sheet.py:95-120):
`Sem H1 E sem H2` / `CRÍTICO MÁXIMO`, prioridade 0. -/
def h1h2FindNoH1H2 (df : DataFrame) : List H1H2Issue :=
  if ¬ (df.cols.contains "h1_count" && df.cols.contains "h2_count") then [] else
  let noBoth := safeFilterP df "h1_count"
    (fun r => decide (colI r "h1_count" 0 = 0) && decide (colI r "h2_count" 0 = 0))
  noBoth.rows.map fun r =>
    { url := getStrD r "url" ""
      problema_h1_h2 := "Sem H1 E sem H2"
      criticidade := "CRÍTICO MÁXIMO"
      prioridade := 0
      h1_count := 0
      h1_text := ""
      h2_count := 0
      title := getStrD r "title" ""
      page_type := h1h2PageTypeOfUrl (getStrD r "url" "")
      action_required := "URGENTÍSSIMO: Estrutura de headings completa"
      business_impact := "Página invisível para SEO - Zero estrutura"
      technical_fix := "Implementar hierarquia completa H1>H2>H3" }

/-- The draft issue list of `H1H2MissingSheet.create_sheet`
(h1_h2_missing_sheet.py:15-38): `Sem H1` drafts, then `Sem H2` drafts, then
`Sem H1 E sem H2` drafts. -/
def h1h2Drafts (df : DataFrame) : List H1H2Issue :=
  h1h2FindNoH1 df ++ h1h2FindNoH2 df ++ h1h2FindNoH1H2 df

/-- Comparator of `sort_values(['prioridade', 'url'])`
(h1_h2_missing_sheet.py:152). -/
def prioUrlLe (a b : H1H2Issue) : Bool :=
  lexB (fun i => i.prioridade) (fun i j => pyStrLeB i.url j.url) a b

/-- Embeds `H1H2MissingSheet._export_consolidated_issues`
(h1_h2_missing_sheet.py:141-161): first `drop_duplicates(subset=['url'],
keep='first')` on the draft list — the source comment says it keeps the most
critical row, but the drafts arrive in `Sem H1`-first order — and only then
sort by `(prioridade, url)`. -/
def h1h2ExportConsolidated (issues : List H1H2Issue) : List H1H2Issue :=
  sortByB prioUrlLe (dedupByKeys (fun i => i.url) issues)

/-- The rows the 'H1 H2 Ausentes' sheet finally exports (the extra per-url
dedup of `BaseSheet._export_dataframe` is a no-op here). -/
def h1h2ExportFinal (df : DataFrame) : List H1H2Issue :=
  dedupByKeys (fun i => i.url) (h1h2ExportConsolidated (h1h2Drafts df))

/-! ## Technical sheet (technical_problems_sheet.py) -/

/-- One row of the 'Problemas Técnicos' issue table. -/
structure TechIssue where
  url : String
  problema : String
  criticidade : String
  categoria : String
  valor_atual : String
  valor_esperado : String
  impacto_seo : String
  action_required : String
  technical_fix : String
  priority_score : Int
  deriving DecidableEq, Repr

/-- Comparator of `sort_values(['priority_score', 'criticidade'],
ascending=[False, True])` (technical_problems_sheet.py:314): descending
priority score first, ascending criticality *string* on ties. -/
def techLe (a b : TechIssue) : Bool :=
  lexB (fun i => -i.priority_score) (fun i j => pyStrLeB i.criticidade j.criticidade) a b

/-- Embeds `TechnicalProblemsSheet._export_consolidated_issues`
(technical_problems_sheet.py:303-322): dedup on `(url, problema)`, then sort
by descending `priority_score` (criticality string as tiebreak) — not by
criticality rank. -/
def technicalExportConsolidated (issues : List TechIssue) : List TechIssue :=
  sortByB techLe (dedupByKeys (fun i => (i.url, i.problema)) issues)

/-! ## Performance sheet (performance_sheet.py) -/

/-- One row of the 'Problemas Performance' issue table (float metrics modelled
as integers; the claims only involve their relative order). -/
structure PerfIssue where
  url : String
  problema : String
  criticidade : String
  categoria : String
  response_time : Int
  content_length : Int
  content_length_mb : Int
  page_type : String
  core_web_vitals_impact : String
  user_experience_impact : String
  seo_impact : String
  action_required : String
  technical_recommendations : String
  business_impact : String
  priority_score : Int
  deriving DecidableEq, Repr

/-- Comparator of `sort_values(['priority_score', 'response_time'],
ascending=[False, False])` (performance_sheet.py:283). -/
def perfLe (a b : PerfIssue) : Bool :=
  lexB (fun i => -i.priority_score) (fun i j => decide (j.response_time ≤ i.response_time)) a b

/-- Embeds `PerformanceSheet._export_consolidated_issues`
(performance_sheet.py:272-293): dedup on `(url, problema)`, then sort by
descending `priority_score` (descending `response_time` on ties) — not by
criticality rank. -/
def performanceExportConsolidated (issues : List PerfIssue) : List PerfIssue :=
  sortByB perfLe (dedupByKeys (fun i => (i.url, i.problema)) issues)

/-! ## Image sheet (image_problems_sheet.py) -/

/-- One row of the 'Problemas Imagens' issue table. -/
structure ImgIssue where
  url : String
  problema : String
  criticidade : String
  images_count : Int
  images_without_alt : Int
  images_with_alt : Int
  alt_coverage : String
  page_type : String
  accessibility_impact : String
  seo_impact : String
  action_required : String
  technical_fix : String
  deriving DecidableEq, Repr

/-- Embeds `ImageProblemsSheet._export_consolidated_issues`
(image_problems_sheet.py:227-247): dedup on `(url, problema)`, then
`_sort_by_criticality`. -/
def imageExportConsolidated (issues : List ImgIssue) : List ImgIssue :=
  sortByCriticality (fun i => i.criticidade) (fun i => i.url)
    (dedupByKeys (fun i => (i.url, i.problema)) issues)

/-! ## Mixed-content sheet (mixed_content_sheet.py) -/

/-- One row of the '🔒 Mixed Content' issue table. -/
structure MCIssue where
  url : String
  tipo_mixed_content : String
  tipo_recurso : String
  url_http : String
  risco : String
  impacto : String
  solucao : String
  deriving DecidableEq, Repr

/-- The per-row body of `MixedContentSheet._process_https_issues`
(mixed_content_sheet.py:47-93): active items, then passive items, then the
summary fallback row when counts are positive but details are missing. -/
def processHttpsRow (r : Row) : List MCIssue :=
  let url := getStrD r "url" ""
  let activeCount := getIntD r "active_mixed_content_count" 0
  let passiveCount := getIntD r "passive_mixed_content_count" 0
  let activeDetails := getItems r "active_mixed_content_details"
  let passiveDetails := getItems r "passive_mixed_content_details"
  (activeDetails.map fun it =>
    { url := url
      tipo_mixed_content := "ACTIVE (Crítico)"
      tipo_recurso := pyUpper (it.itemType.getD "unknown")
      url_http := it.itemUrl.getD ""
      risco := "CRÍTICO - Bloqueado pelo browser"
      impacto := "Quebra funcionalidade da página"
      solucao := "Alterar " ++ it.itemType.getD "None" ++ " para HTTPS" }) ++
  (passiveDetails.map fun it =>
    { url := url
      tipo_mixed_content := "PASSIVE (Aviso)"
      tipo_recurso := pyUpper (it.itemType.getD "unknown")
      url_http := it.itemUrl.getD ""
      risco := "MÉDIO - Cadeado quebrado"
      impacto := "Reduz confiança do usuário"
      solucao := "Alterar " ++ it.itemType.getD "None" ++ " para HTTPS" }) ++
  (if (activeDetails.isEmpty && decide (0 < activeCount)) ||
      (passiveDetails.isEmpty && decide (0 < passiveCount)) then
    [{ url := url
       tipo_mixed_content := "MIXED CONTENT"
       tipo_recurso := "MÚLTIPLOS"
       url_http := toString activeCount ++ " active + " ++ toString passiveCount ++ " passive"
       risco := getStrD r "mixed_content_risk" "DESCONHECIDO"
       impacto := "Problemas de segurança HTTPS"
       solucao := "Verificar todos os recursos HTTP" }]
   else [])

/-- Embeds `MixedContentSheet._process_https_issues` (mixed_content_sheet.py:38-95).
The filter condition `(df['is_https_page'].fillna(False) == True) &
(df['total_mixed_content_count'].fillna(0) > 0)` is evaluated *before*
`_safe_filter` can check anything, so a missing column raises `KeyError`
right there; the guard inside `_safe_filter` never gets the chance to return
the empty frame. -/
def processHttpsIssues (df : DataFrame) : Except String (List MCIssue) :=
  if ¬ df.cols.contains "is_https_page" then .error "KeyError: is_https_page" else
  if ¬ df.cols.contains "total_mixed_content_count" then
    .error "KeyError: total_mixed_content_count" else
  let httpsPages := safeFilterP df "is_https_page"
    (fun r => colB r "is_https_page" false && decide (0 < colI r "total_mixed_content_count" 0))
  .ok (httpsPages.rows.flatMap processHttpsRow)

/-- The per-row body of `MixedContentSheet._process_http_issues`
(mixed_content_sheet.py:106-133). -/
def processHttpRow (r : Row) : List MCIssue :=
  let url := getStrD r "url" ""
  let linksCount := getIntD r "http_links_count" 0
  let formsCount := getIntD r "http_forms_count" 0
  (if 0 < linksCount then
    [{ url := url
       tipo_mixed_content := "HTTP LINKS"
       tipo_recurso := "LINKS"
       url_http := toString linksCount ++ " links HTTP"
       risco := "BAIXO - Não é mixed content"
       impacto := "Usuário pode sair do HTTPS"
       solucao := "Alterar links para HTTPS quando possível" }]
   else []) ++
  (if 0 < formsCount then
    [{ url := url
       tipo_mixed_content := "HTTP FORMS"
       tipo_recurso := "FORMS"
       url_http := toString formsCount ++ " forms HTTP"
       risco := "MÉDIO - Dados não criptografados"
       impacto := "Submissão de dados insegura"
       solucao := "URGENTE: Alterar action para HTTPS" }]
   else [])

/-- Embeds `MixedContentSheet._process_http_issues` (mixed_content_sheet.py:97-135):
same eager condition construction, so a missing `http_links_count` or
`http_forms_count` column raises `KeyError`. -/
def processHttpIssues (df : DataFrame) : Except String (List MCIssue) :=
  if ¬ df.cols.contains "http_links_count" then .error "KeyError: http_links_count" else
  if ¬ df.cols.contains "http_forms_count" then .error "KeyError: http_forms_count" else
  let httpPages := safeFilterP df "http_links_count"
    (fun r => decide (0 < colI r "http_links_count" 0) || decide (0 < colI r "http_forms_count" 0))
  .ok (httpPages.rows.flatMap processHttpRow)

/-! ## Summary sheet (summary_sheet.py) -/

/-- One data row of the 'Resumo Executivo' table: label, count and the exact
percentage value (the source renders it with one decimal; the rendering is
presentation and is not examined by any property below). -/
structure SummaryRow where
  label : String
  value : Int
  pct : ℚ
  deriving DecidableEq, Repr

/-- A produced sheet: a data table, the standardized error sheet
(`BaseSheet._create_error_sheet`), or the standardized all-clear sheet
(`BaseSheet._create_success_sheet`). -/
inductive SheetOut where
  | table (name : String) (rows : List SummaryRow)
  | errSheet (name msg : String)
  | successSheet (name msg : String)
  deriving DecidableEq, Repr

/-- Embeds `value_counts().head(10)`: distinct values with their multiplicities,
most frequent first (stable on ties), first ten. -/
def valueCountsHead10 (vals : List Value) : List (Value × Nat) :=
  (sortByB (fun a b => decide ((b : Value × Nat).2 ≤ (a : Value × Nat).2))
    (vals.dedup.map fun v => (v, vals.count v))).take 10

/-- Python `str()` of a cell value, as used in the `Status {status}` label. -/
def pyShow (v : Value) : String :=
  match v with
  | .vs s => s
  | .vi n => toString n
  | .vb b => if b then "True" else "False"
  | .vnan => "nan"
  | .vitems _ => "[...]"

/-- Embeds `SummarySheet._add_status_codes_stats` (summary_sheet.py:45-56).
`value_counts` drops `NaN` cells before counting. -/
def summaryStatusRows (df : DataFrame) (total : Int) : List SummaryRow :=
  if ¬ df.cols.contains "status_code" then [] else
  (valueCountsHead10 (((df.rows.map fun r => (List.lookup "status_code" r).getD .vnan).filter
      fun v => !decide (v = .vnan)))).map
    fun p => { label := "Status " ++ pyShow p.1, value := (p.2 : Int), pct := (p.2 : ℚ) / total * 100 }

/-- One conditional count row: appended only when the count is positive. -/
def summaryCountRow (label : String) (count total : Int) : List SummaryRow :=
  if 0 < count then [{ label := label, value := count, pct := (count : ℚ) / total * 100 }] else []

/-- Embeds `SummarySheet._add_seo_problems_stats` (summary_sheet.py:58-88). -/
def summarySeoRows (df : DataFrame) (total : Int) : List SummaryRow :=
  (if df.cols.contains "title" then
    summaryCountRow "URLs sem título"
      ((df.rows.filter fun r => colS r "title" == "").length) total else []) ++
  (if df.cols.contains "meta_description" then
    summaryCountRow "URLs sem meta description"
      ((df.rows.filter fun r => colS r "meta_description" == "").length) total else []) ++
  (if df.cols.contains "h1_count" then
    summaryCountRow "URLs sem H1"
      ((df.rows.filter fun r => decide (colI r "h1_count" 0 = 0)).length) total else []) ++
  (if df.cols.contains "h2_count" then
    summaryCountRow "URLs sem H2"
      ((df.rows.filter fun r => decide (colI r "h2_count" 0 = 0)).length) total else []) ++
  (if df.cols.contains "images_without_alt" then
    summaryCountRow "URLs com imagens sem ALT"
      ((df.rows.filter fun r => decide (0 < colI r "images_without_alt" 0)).length) total else [])

/-- Embeds `SummarySheet._add_technical_stats` (summary_sheet.py:90-108). -/
def summaryTechRows (df : DataFrame) (total : Int) : List SummaryRow :=
  (if df.cols.contains "canonical_url" then
    summaryCountRow "URLs sem canonical"
      ((df.rows.filter fun r => colS r "canonical_url" == "").length) total else []) ++
  (if df.cols.contains "has_viewport" then
    summaryCountRow "URLs sem viewport"
      ((df.rows.filter fun r => colB r "has_viewport" false == false).length) total else []) ++
  (if df.cols.contains "response_time" then
    summaryCountRow "URLs lentas (>3s)"
      ((df.rows.filter fun r => decide (3 < colI r "response_time" 0)).length) total else [])

/-- Embeds `SummarySheet._add_mixed_content_stats` (summary_sheet.py:110-128). -/
def summaryMixedRows (df : DataFrame) (total : Int) : List SummaryRow :=
  (if df.cols.contains "total_mixed_content_count" then
    summaryCountRow "URLs com Mixed Content"
      ((df.rows.filter fun r => decide (0 < colI r "total_mixed_content_count" 0)).length) total else []) ++
  (if df.cols.contains "active_mixed_content_count" then
    summaryCountRow "URLs com Mixed Content CRÍTICO"
      ((df.rows.filter fun r => decide (0 < colI r "active_mixed_content_count" 0)).length) total else []) ++
  (if df.cols.contains "is_https_page" then
    summaryCountRow "Total páginas HTTPS"
      ((df.rows.filter fun r => colB r "is_https_page" false == true).length) total else [])

/-- Embeds `SummarySheet.create_sheet` (summary_sheet.py:15-43): with zero records it
produces the standardized *error* sheet carrying the explicit
'Nenhum dado para resumir' marker; otherwise the statistics table. -/
def summaryCreateSheet (df : DataFrame) : SheetOut :=
  let total : Int := (df.rows.length : Int)
  if df.rows.length = 0 then .errSheet "Resumo Executivo" "Nenhum dado para resumir"
  else
    let dataRows :=
      [{ label := "Total de URLs", value := total, pct := 100 }] ++
      summaryStatusRows df total ++ summarySeoRows df total ++
      summaryTechRows df total ++ summaryMixedRows df total
    -- `if len(summary_data) > 1` with the header row counted: always true here
    if 0 < dataRows.length then .table "Resumo Executivo" dataRows
    else .errSheet "Resumo Executivo" "Erro na criação do resumo"

/-! ## Excel exporter (excel_exporter.py) -/

/-- Embeds `ExcelExporter._get_column_order` (excel_exporter.py:117-133). -/
def columnOrder : List String :=
  ["url", "final_url", "status_code",
   "title", "title_length", "title_words",
   "meta_description", "meta_description_length", "meta_keywords",
   "h1_count", "h1_text", "h1_length",
   "h2_count", "h3_count", "h4_count", "h5_count", "h6_count",
   "internal_links_count", "external_links_count", "total_links_count",
   "images_count", "images_without_alt", "images_without_src",
   "word_count", "character_count", "text_ratio",
   "canonical_url", "canonical_is_self", "meta_robots",
   "has_viewport", "has_charset", "has_favicon",
   "schema_total_count", "og_tags_count", "twitter_tags_count",
   "response_time", "content_length", "content_type",
   "crawl_timestamp"]

/-- The column list of `pd.DataFrame(crawl_data)`: record keys in order of
first appearance. -/
def dfColsOfRecords (records : List Row) : List String :=
  records.foldl (fun acc r => acc ++ ((r.map Prod.fst).filter fun c => !acc.contains c)) []

/-- The raw-data ('Dados Completos') view written by `export_results`. -/
structure RawExport where
  columns : List String
  rows : List (List (String × Value))
  deriving DecidableEq, Repr

/-- The final column order of the raw-data view
(`export_results`, excel_exporter.py:64-68): the declared priority columns
that are present, in declared order, then the remaining columns sorted
(Python `sorted`, i.e. ascending lexicographic). -/
def finalColumns (cols : List String) : List String :=
  (columnOrder.filter fun c => cols.contains c) ++
    sortByB pyStrLeB (cols.filter fun c => !columnOrder.contains c)

/-- One exported raw row: `df[final_columns].fillna('')` — every selected cell
present, `NaN`/missing replaced by the empty string. -/
def rawRowOf (final : List String) (r : Row) : List (String × Value) :=
  final.map fun c =>
    (c, match List.lookup c r with
        | some .vnan => .vs ""
        | some v => v
        | none => .vs "")

/-- Embeds `ExcelExporter.export_results` (excel_exporter.py:40-80) up to the write of
the 'Dados Completos' sheet.  With empty `crawl_data` the function logs a
warning and returns the empty path at line 45-47 *before* creating the writer:
`none` here means no sheet of any kind — Summary and category sheets
included — is written.  The per-category sheet writes that follow in the
source are modelled by the sheet-class functions above. -/
def exportResultsModel (crawlData : List Row) : Option RawExport :=
  if crawlData.isEmpty then none
  else
    let cols := dfColsOfRecords crawlData
    let final := finalColumns cols
    some ⟨final, crawlData.map (rawRowOf final)⟩

/-! ## Base-sheet issue view -/

/-- The two columns `BaseSheet._sort_by_criticality` actually reads from an
issue table: `criticidade` and `url`. -/
structure BIssue where
  url : String
  criticidade : String
  deriving DecidableEq, Repr

/-- Embeds `BaseSheet._sort_by_criticality` on a plain issue table. -/
def baseSortByCriticality (l : List BIssue) : List BIssue :=
  sortByCriticality (fun i => i.criticidade) (fun i => i.url) l

/-! ## Concrete witness inputs -/

/-- Two records sharing the non-empty title "X". -/
def wdfTitles : DataFrame :=
  ⟨["url", "title"],
   [[("url", Value.vs "a"), ("title", Value.vs "X")],
    [("url", Value.vs "b"), ("title", Value.vs "X")]]⟩

/-- The first of the two title-sharing records. -/
def wrowTitle : Row := [("url", Value.vs "a"), ("title", Value.vs "X")]

/-- Two draft title issues for the same url with different severities. -/
def wTitleIssues : List TitleIssue :=
  [{ url := "u", problema := "Título muito curto (10 chars)", criticidade := "MÉDIO",
     title := "Curto", title_length := 10, title_words := 1,
     recomendacao := "Adicionar 20 caracteres (ideal: 30-60)",
     impacto_seo := "Pouco aproveitamento do espaço na SERP" },
   { url := "u", problema := "Sem título", criticidade := "CRÍTICO",
     title := "", title_length := 0, title_words := 0,
     recomendacao := "Adicionar título único e descritivo (30-60 chars)",
     impacto_seo := "Muito alto - Título é fundamental para SEO" }]

/-- A one-record crawl result whose extra column sorts before `url` would. -/
def wRecords : List Row :=
  [[("beta", Value.vs "1"), ("url", Value.vs "https://ex.com/"), ("alpha", Value.vs "2")]]

/-! ## Order lemmas for the embedded comparators -/

theorem clistLe_refl (l : List Char) : clistLe l l = true := by
  induction l with
  | nil => rfl
  | cons a as ih => simp [clistLe, ih]

theorem clistLe_total (xs ys : List Char) : clistLe xs ys = true ∨ clistLe ys xs = true := by
  induction xs generalizing ys with
  | nil => left; rfl
  | cons a as ih =>
    cases ys with
    | nil => right; rfl
    | cons b bs =>
      simp only [clistLe]
      rcases Nat.lt_trichotomy a.toNat b.toNat with h | h | h
      · left; simp [h]
      · have h2 : ¬ a.toNat < b.toNat := by omega
        have h3 : ¬ b.toNat < a.toNat := by omega
        rcases ih bs with h4 | h4
        · left; simp [h2, h3, h4]
        · right; simp [h2, h3, h4]
      · right; simp [h]

theorem clistLe_trans (xs ys zs : List Char) (h1 : clistLe xs ys = true)
    (h2 : clistLe ys zs = true) : clistLe xs zs = true := by
  induction xs generalizing ys zs with
  | nil => rfl
  | cons a as ih =>
    cases ys with
    | nil => simp [clistLe] at h1
    | cons b bs =>
      cases zs with
      | nil => simp [clistLe] at h2
      | cons c cs =>
        simp only [clistLe] at h1 h2 ⊢
        rcases Nat.lt_trichotomy a.toNat b.toNat with hab | hab | hab
        · rcases Nat.lt_trichotomy b.toNat c.toNat with hbc | hbc | hbc
          · simp [show a.toNat < c.toNat by omega]
          · simp [show a.toNat < c.toNat by omega]
          · simp [show ¬ b.toNat < c.toNat by omega, hbc] at h2
        · rcases Nat.lt_trichotomy b.toNat c.toNat with hbc | hbc | hbc
          · simp [show a.toNat < c.toNat by omega]
          · have h1r : clistLe as bs = true := by
              simpa [show ¬ a.toNat < b.toNat by omega,
                show ¬ b.toNat < a.toNat by omega] using h1
            have h2r : clistLe bs cs = true := by
              simpa [show ¬ b.toNat < c.toNat by omega,
                show ¬ c.toNat < b.toNat by omega] using h2
            simp only [show ¬ a.toNat < c.toNat by omega, if_false,
              show ¬ c.toNat < a.toNat by omega]
            exact ih bs cs h1r h2r
          · simp [show ¬ b.toNat < c.toNat by omega, hbc] at h2
        · simp [show ¬ a.toNat < b.toNat by omega, hab] at h1

theorem pyStrLeB_refl (a : String) : pyStrLeB a a = true := clistLe_refl _

theorem pyStrLeB_total (a b : String) : pyStrLeB a b = true ∨ pyStrLeB b a = true :=
  clistLe_total _ _

theorem pyStrLeB_trans (a b c : String) (h1 : pyStrLeB a b = true)
    (h2 : pyStrLeB b c = true) : pyStrLeB a c = true :=
  clistLe_trans _ _ _ h1 h2

theorem lexB_refl (k : α → Int) (le2 : α → α → Bool) (hrefl : ∀ a, le2 a a = true) (a : α) :
    lexB k le2 a a = true := by
  simp [lexB, hrefl]

theorem lexB_total (k : α → Int) (le2 : α → α → Bool)
    (htot : ∀ a b, le2 a b = true ∨ le2 b a = true) (a b : α) :
    lexB k le2 a b = true ∨ lexB k le2 b a = true := by
  simp only [lexB, Bool.or_eq_true, decide_eq_true_eq, Bool.and_eq_true]
  rcases lt_trichotomy (k a) (k b) with h | h | h
  · exact Or.inl (Or.inl h)
  · rcases htot a b with h2 | h2
    · exact Or.inl (Or.inr ⟨by simpa using h, h2⟩)
    · exact Or.inr (Or.inr ⟨by simp [h], h2⟩)
  · exact Or.inr (Or.inl h)

theorem lexB_trans (k : α → Int) (le2 : α → α → Bool)
    (htr : ∀ a b c, le2 a b = true → le2 b c = true → le2 a c = true) (a b c : α)
    (h1 : lexB k le2 a b = true) (h2 : lexB k le2 b c = true) :
    lexB k le2 a c = true := by
  simp only [lexB, Bool.or_eq_true, decide_eq_true_eq, Bool.and_eq_true] at h1 h2 ⊢
  rcases h1 with h1 | ⟨h1e, h1l⟩ <;> rcases h2 with h2 | ⟨h2e, h2l⟩
  · exact Or.inl (h1.trans h2)
  · exact Or.inl (by omega)
  · exact Or.inl (by omega)
  · exact Or.inr ⟨by omega, htr _ _ _ h1l h2l⟩

theorem sortByB_sorted (le : α → α → Bool)
    (htot : ∀ a b, le a b = true ∨ le b a = true)
    (htr : ∀ a b c, le a b = true → le b c = true → le a c = true) (l : List α) :
    List.Sorted (fun a b => le a b = true) (sortByB le l) := by
  haveI : IsTotal α (fun a b => le a b = true) := ⟨htot⟩
  haveI : IsTrans α (fun a b => le a b = true) := ⟨htr⟩
  exact List.sorted_insertionSort _ l

theorem sortByB_perm (le : α → α → Bool) (l : List α) : (sortByB le l).Perm l :=
  List.perm_insertionSort _ l

theorem rankUrlLe_refl (crit url : α → String) (a : α) : rankUrlLe crit url a a = true :=
  lexB_refl (fun x => rankOfCrit (crit x)) (fun x y => pyStrLeB (url x) (url y))
    (fun x => pyStrLeB_refl (url x)) a

theorem rankUrlLe_total (crit url : α → String) (a b : α) :
    rankUrlLe crit url a b = true ∨ rankUrlLe crit url b a = true :=
  lexB_total _ _ (fun x y => pyStrLeB_total (url x) (url y)) a b

theorem rankUrlLe_trans (crit url : α → String) (a b c : α)
    (h1 : rankUrlLe crit url a b = true) (h2 : rankUrlLe crit url b c = true) :
    rankUrlLe crit url a c = true :=
  lexB_trans _ _ (fun x y z => pyStrLeB_trans (url x) (url y) (url z)) a b c h1 h2

/-- Unfolded reading of the `_sort_by_criticality` comparator. -/
theorem rankUrlLe_iff (crit url : α → String) (a b : α) :
    rankUrlLe crit url a b = true ↔
      (rankOfCrit (crit a) < rankOfCrit (crit b) ∨
        (rankOfCrit (crit a) = rankOfCrit (crit b) ∧ pyStrLeB (url a) (url b) = true)) := by
  simp [rankUrlLe, lexB]

/-- The `_sort_by_criticality` output is sorted: criticality rank ascending, with
ascending url as the tiebreak inside equal ranks. -/
theorem sortByCriticality_sorted (crit url : α → String) (l : List α) :
    List.Sorted (fun a b => rankUrlLe crit url a b = true) (sortByCriticality crit url l) :=
  sortByB_sorted _ (rankUrlLe_total crit url) (rankUrlLe_trans crit url) l

theorem sortByCriticality_perm (crit url : α → String) (l : List α) :
    (sortByCriticality crit url l).Perm l :=
  sortByB_perm _ l

/-! ## Deduplication lemmas -/

theorem dedupByKeysAux_sublist [DecidableEq β] (key : α → β) (seen : List β) (l : List α) :
    (dedupByKeysAux key seen l).Sublist l := by
  induction l generalizing seen with
  | nil => simp [dedupByKeysAux]
  | cons a as ih =>
    simp only [dedupByKeysAux]
    split
    · exact (ih seen).trans (List.sublist_cons_self a as)
    · exact (ih (key a :: seen)).cons₂ a

theorem dedupByKeysAux_keys_not_seen [DecidableEq β] (key : α → β) (seen : List β)
    (l : List α) : ∀ x ∈ dedupByKeysAux key seen l, key x ∉ seen := by
  induction l generalizing seen with
  | nil => simp [dedupByKeysAux]
  | cons a as ih =>
    simp only [dedupByKeysAux]
    split
    · exact ih seen
    · rename_i hnot
      intro x hx
      rcases List.mem_cons.mp hx with rfl | hx
      · exact hnot
      · have := ih (key a :: seen) x hx
        simp only [List.mem_cons] at this
        exact fun hc => this (Or.inr hc)

theorem dedupByKeysAux_pairwise [DecidableEq β] (key : α → β) (seen : List β) (l : List α) :
    (dedupByKeysAux key seen l).Pairwise (fun a b => key a ≠ key b) := by
  induction l generalizing seen with
  | nil => simp [dedupByKeysAux]
  | cons a as ih =>
    simp only [dedupByKeysAux]
    split
    · exact ih seen
    · refine List.Pairwise.cons ?_ (ih (key a :: seen))
      intro b hb
      have := dedupByKeysAux_keys_not_seen key (key a :: seen) as b hb
      simp only [List.mem_cons] at this
      exact fun hc => this (Or.inl hc.symm)

/-- Over the deduplicated output, every row of the input with an unseen key is
represented by a kept row with the same key that the order relation places no
later (for a sorted input: an at-least-as-severe row). -/
theorem dedupByKeysAux_cover [DecidableEq β] (key : α → β) (r : α → α → Prop)
    (hrefl : ∀ a, r a a) (seen : List β) (l : List α) (hs : List.Sorted r l) :
    ∀ x ∈ l, key x ∉ seen →
      ∃ y ∈ dedupByKeysAux key seen l, key y = key x ∧ r y x := by
  induction l generalizing seen with
  | nil => simp
  | cons a as ih =>
    rcases List.sorted_cons.mp hs with ⟨hhead, htail⟩
    intro x hx hseen
    simp only [dedupByKeysAux]
    rcases List.mem_cons.mp hx with hxa | hx
    · split
      · rename_i hmem
        rw [hxa] at hseen
        exact absurd hmem hseen
      · refine ⟨a, List.mem_cons_self _ _, ?_, ?_⟩
        · rw [hxa]
        · rw [hxa]
          exact hrefl a
    · by_cases hk : key x = key a
      · split
        · rename_i hmem
          rw [hk] at hseen
          exact absurd hmem hseen
        · exact ⟨a, List.mem_cons_self _ _, hk.symm, hhead x hx⟩
      · split
        · rcases ih seen htail x hx hseen with ⟨y, hy, hky, hr⟩
          exact ⟨y, hy, hky, hr⟩
        · have hseen2 : key x ∉ key a :: seen := by
            simp only [List.mem_cons]
            rintro (h | h)
            · exact hk h
            · exact hseen h
          rcases ih (key a :: seen) htail x hx hseen2 with ⟨y, hy, hky, hr⟩
          exact ⟨y, List.mem_cons_of_mem _ hy, hky, hr⟩

theorem dedupByKeys_sublist [DecidableEq β] (key : α → β) (l : List α) :
    (dedupByKeys key l).Sublist l :=
  dedupByKeysAux_sublist key [] l

theorem dedupByKeys_pairwise [DecidableEq β] (key : α → β) (l : List α) :
    (dedupByKeys key l).Pairwise (fun a b => key a ≠ key b) :=
  dedupByKeysAux_pairwise key [] l

theorem dedupByKeys_cover [DecidableEq β] (key : α → β) (r : α → α → Prop)
    (hrefl : ∀ a, r a a) (l : List α) (hs : List.Sorted r l) :
    ∀ x ∈ l, ∃ y ∈ dedupByKeys key l, key y = key x ∧ r y x := by
  intro x hx
  exact dedupByKeysAux_cover key r hrefl [] l hs x hx (by simp)

/-! ## Claim theorems -/

/-- C1: a record with `h1_count = 0` and `h2_count = 0` does *not* surface as
"Sem H1 E sem H2" / CRÍTICO MÁXIMO.  In the heading report it appears only as
"Sem H1" / CRÍTICO (that sheet has no combined rule at all); in the
H1/H2-focused report the combined CRÍTICO MÁXIMO draft is created, but the
per-url `keep='first'` deduplication runs on the draft list in which the
"Sem H1" draft comes first, so the exported row is "Sem H1" / CRÍTICO with
prioridade 1 — contradicting the source's own comment that the most critical
row is kept. -/
theorem c1_no_h1_h2_record_surfaces_as_sem_h1 :
    (headingExportFinal
        (⟨["url", "h1_count", "h2_count"],
          [[("url", Value.vs "a"), ("h1_count", Value.vi 0), ("h2_count", Value.vi 0)]]⟩ :
          DataFrame)).map (fun i => (i.problema, i.criticidade)) =
      [("Sem H1", "CRÍTICO")] ∧
    (h1h2Drafts
        (⟨["url", "h1_count", "h2_count"],
          [[("url", Value.vs "a"), ("h1_count", Value.vi 0), ("h2_count", Value.vi 0)]]⟩ :
          DataFrame)).map (fun i => (i.problema_h1_h2, i.criticidade, i.prioridade)) =
      [("Sem H1", "CRÍTICO", 1), ("Sem H1 E sem H2", "CRÍTICO MÁXIMO", 0)] ∧
    (h1h2ExportFinal
        (⟨["url", "h1_count", "h2_count"],
          [[("url", Value.vs "a"), ("h1_count", Value.vi 0), ("h2_count", Value.vi 0)]]⟩ :
          DataFrame)).map (fun i => (i.problema_h1_h2, i.criticidade, i.prioridade)) =
      [("Sem H1", "CRÍTICO", 1)] :=
  ⟨rfl, rfl, rfl⟩

/-- C3: rules that pre-check their columns do return the empty sequence on a
record set missing those columns, but the mixed-content rules build the filter
condition `df['is_https_page'].fillna(False) ...` before `_safe_filter` can
guard anything, so they raise `KeyError` on the same input. -/
theorem c3_mixed_content_rules_raise_on_missing_fields :
    findLongTitleIssues (⟨["url"], [[("url", Value.vs "https://ex.com/")]]⟩ : DataFrame) = [] ∧
    findLongMetaIssues (⟨["url"], [[("url", Value.vs "https://ex.com/")]]⟩ : DataFrame) = [] ∧
    h1h2FindNoH1 (⟨["url"], [[("url", Value.vs "https://ex.com/")]]⟩ : DataFrame) = [] ∧
    headingFindNoH1 (⟨["url"], [[("url", Value.vs "https://ex.com/")]]⟩ : DataFrame) = [] ∧
    processHttpsIssues (⟨["url"], [[("url", Value.vs "https://ex.com/")]]⟩ : DataFrame) =
      .error "KeyError: is_https_page" ∧
    processHttpIssues (⟨["url"], [[("url", Value.vs "https://ex.com/")]]⟩ : DataFrame) =
      .error "KeyError: http_links_count" :=
  ⟨rfl, rfl, rfl, rfl, rfl, rfl⟩

/-- C6 counterexample: on the empty record set `export_results` returns the
empty path before creating the writer, so no sheet — in particular no Summary
"nothing to summarize" marker and no category all-clear marker — is produced. -/
theorem c6_counterexample_empty_input_produces_nothing :
    exportResultsModel [] = none := rfl

/-- C6 (amended): on the empty record set the exporter short-circuits and
produces no output at all (raising nothing); the Summary component itself,
invoked on an empty record set, yields the explicit error-marker sheet
'Nenhum dado para resumir'. -/
theorem c6_amended_empty_input :
    exportResultsModel [] = none ∧
    summaryCreateSheet (⟨[], []⟩ : DataFrame) =
      SheetOut.errSheet "Resumo Executivo" "Nenhum dado para resumir" :=
  ⟨rfl, rfl⟩

/-- C8 counterexample: the image sheet's classifier is not the seven-tag
classifier — it returns the extra tag `Galeria`, and it misses the contact
check (a `/contato` URL classifies as `Contato` for the H1/H2 sheet but as
generic `Conteúdo` for the image sheet). -/
theorem c8_counterexample_image_classifier_diverges :
    imagePageTypeOfUrl "https://site.com/galeria/fotos" = "Galeria" ∧
    "Galeria" ∉ sevenPageTypes ∧
    h1h2PageTypeOfUrl "https://site.com/contato" = "Contato" ∧
    imagePageTypeOfUrl "https://site.com/contato" = "Conteúdo" := by
  refine ⟨rfl, ?_, rfl, rfl⟩
  decide

/-- C7: `_sort_by_criticality` output is a permutation of its input ordered by
criticality rank ascending under
CRÍTICO MÁXIMO < CRÍTICO < ALTO < MÉDIO < BAIXO < (anything else), with ties
broken by ascending url. -/
theorem c7_sort_by_criticality_total_preorder :
    (∀ l : List BIssue, (baseSortByCriticality l).Perm l) ∧
    (∀ l : List BIssue, List.Sorted (fun a b : BIssue =>
      rankOfCrit a.criticidade < rankOfCrit b.criticidade ∨
        (rankOfCrit a.criticidade = rankOfCrit b.criticidade ∧ pyStrLeB a.url b.url = true))
      (baseSortByCriticality l)) ∧
    (rankOfCrit "CRÍTICO MÁXIMO" = 0 ∧ rankOfCrit "CRÍTICO" = 1 ∧ rankOfCrit "ALTO" = 2 ∧
      rankOfCrit "MÉDIO" = 3 ∧ rankOfCrit "BAIXO" = 4) ∧
    (∀ s : String, s ∉ ["CRÍTICO MÁXIMO", "CRÍTICO", "ALTO", "MÉDIO", "BAIXO"] →
      rankOfCrit "BAIXO" < rankOfCrit s) := by
  refine ⟨?_, ?_, ⟨rfl, rfl, rfl, rfl, rfl⟩, ?_⟩
  · intro l
    exact sortByCriticality_perm _ _ l
  · intro l
    exact (sortByCriticality_sorted (fun i : BIssue => i.criticidade) (fun i => i.url) l).imp
      (fun h => (rankUrlLe_iff _ _ _ _).mp h)
  · intro s hs
    simp only [List.mem_cons, List.not_mem_nil, or_false, not_or] at hs
    obtain ⟨h1, h2, h3, h4, h5⟩ := hs
    simp [rankOfCrit, h1, h2, h3, h4, h5]

/-- C7 witness: the theorem applied at a concrete unmapped label. -/
theorem c7_sort_by_criticality_total_preorder_witness :
    ("URGENTE" : String) ∉ ["CRÍTICO MÁXIMO", "CRÍTICO", "ALTO", "MÉDIO", "BAIXO"] ∧
    rankOfCrit "BAIXO" < rankOfCrit "URGENTE" :=
  ⟨by decide, c7_sort_by_criticality_total_preorder.2.2.2 "URGENTE" (by decide)⟩

/-- C2 counterexample: the technical and performance consolidations do not
order by criticality rank first.  Fed two draft issues with equal
`priority_score`, the performance sort (priority desc, `response_time` desc)
puts a MÉDIO row before an ALTO one; the technical sort (priority desc,
criticality string asc) puts a MÉDIO row with a higher score before an ALTO
row with a lower one.  (The narrative fields play no role in the ordering.) -/
theorem c2_counterexample_priority_score_beats_rank :
    ((performanceExportConsolidated
        [{ url := "a", problema := "Muitos recursos: 60 imagens", criticidade := "MÉDIO",
           categoria := "Recursos", response_time := 2, content_length := 0,
           content_length_mb := 0, page_type := "Conteúdo",
           core_web_vitals_impact := "-", user_experience_impact := "-",
           seo_impact := "-", action_required := "-",
           technical_recommendations := "-", business_impact := "-", priority_score := 6 },
         { url := "b", problema := "Muitos recursos: 320 links", criticidade := "ALTO",
           categoria := "Recursos", response_time := 1, content_length := 0,
           content_length_mb := 0, page_type := "Conteúdo",
           core_web_vitals_impact := "-", user_experience_impact := "-",
           seo_impact := "-", action_required := "-",
           technical_recommendations := "-", business_impact := "-", priority_score := 6 }]).map
        (fun i => (i.criticidade, rankOfCrit i.criticidade))) =
      [("MÉDIO", 3), ("ALTO", 2)] ∧
    ((technicalExportConsolidated
        [{ url := "a", problema := "Sem structured data (Schema)", criticidade := "MÉDIO",
           categoria := "Structured Data", valor_atual := "Ausente", valor_esperado := "-",
           impacto_seo := "-", action_required := "-", technical_fix := "-",
           priority_score := 9 },
         { url := "b", problema := "Sem meta viewport", criticidade := "ALTO",
           categoria := "Mobile", valor_atual := "Ausente", valor_esperado := "-",
           impacto_seo := "-", action_required := "-", technical_fix := "-",
           priority_score := 2 }]).map
        (fun i => (i.criticidade, rankOfCrit i.criticidade))) =
      [("MÉDIO", 3), ("ALTO", 2)] :=
  ⟨rfl, rfl⟩

/-- C2 (amended): the rank-ascending / url-tiebreak two-level ordering is what
the title, meta, heading and image consolidations produce (they share
`_sort_by_criticality`); the technical and performance consolidations instead
sort primarily by descending `priority_score` (with the criticality string,
resp. descending `response_time`, as secondary key), so their reports need not
be ordered by criticality rank. -/
theorem c2_amended_rank_first_only_in_shared_sort_categories :
    (∀ l : List TitleIssue, List.Sorted (fun a b : TitleIssue =>
      rankOfCrit a.criticidade < rankOfCrit b.criticidade ∨
        (rankOfCrit a.criticidade = rankOfCrit b.criticidade ∧ pyStrLeB a.url b.url = true))
      (titleExportConsolidated l)) ∧
    (∀ l : List MetaIssue, List.Sorted (fun a b : MetaIssue =>
      rankOfCrit a.criticidade < rankOfCrit b.criticidade ∨
        (rankOfCrit a.criticidade = rankOfCrit b.criticidade ∧ pyStrLeB a.url b.url = true))
      (metaExportConsolidated l)) ∧
    (∀ l : List HeadIssue, List.Sorted (fun a b : HeadIssue =>
      rankOfCrit a.criticidade < rankOfCrit b.criticidade ∨
        (rankOfCrit a.criticidade = rankOfCrit b.criticidade ∧ pyStrLeB a.url b.url = true))
      (headingExportConsolidated l)) ∧
    (∀ l : List ImgIssue, List.Sorted (fun a b : ImgIssue =>
      rankOfCrit a.criticidade < rankOfCrit b.criticidade ∨
        (rankOfCrit a.criticidade = rankOfCrit b.criticidade ∧ pyStrLeB a.url b.url = true))
      (imageExportConsolidated l)) ∧
    (∀ l : List TechIssue, List.Sorted (fun a b : TechIssue =>
      techLe a b = true) (technicalExportConsolidated l)) ∧
    (∀ l : List PerfIssue, List.Sorted (fun a b : PerfIssue =>
      perfLe a b = true) (performanceExportConsolidated l)) := by
  refine ⟨?_, ?_, ?_, ?_, ?_, ?_⟩
  · intro l
    exact (sortByCriticality_sorted _ _ _).imp (fun h => (rankUrlLe_iff _ _ _ _).mp h)
  · intro l
    exact (sortByCriticality_sorted _ _ _).imp (fun h => (rankUrlLe_iff _ _ _ _).mp h)
  · intro l
    exact (sortByCriticality_sorted _ _ _).imp (fun h => (rankUrlLe_iff _ _ _ _).mp h)
  · intro l
    exact (sortByCriticality_sorted _ _ _).imp (fun h => (rankUrlLe_iff _ _ _ _).mp h)
  · intro l
    exact sortByB_sorted techLe
      (lexB_total _ _ (fun a b => pyStrLeB_total a.criticidade b.criticidade))
      (lexB_trans _ _ (fun a b c => pyStrLeB_trans a.criticidade b.criticidade c.criticidade)) _
  · intro l
    exact sortByB_sorted perfLe
      (lexB_total _ _ (fun a b => by
        simp only [decide_eq_true_eq]
        omega))
      (lexB_trans _ _ (fun a b c h1 h2 => by
        simp only [decide_eq_true_eq] at h1 h2 ⊢
        omega)) _

/-- C8 (amended): the H1/H2-missing, technical and performance classifiers do
return one of the seven spec tags (first substring match wins, then the
homepage heuristic, else the generic tag); the image sheet's classifier is the
exception recorded in the counterexample. -/
theorem c8_amended_classifiers_return_spec_tags (url : String) :
    h1h2PageTypeOfUrl url ∈ sevenPageTypes ∧
    technicalPageTypeOfUrl url ∈ sevenPageTypes ∧
    performancePageTypeOfUrl url ∈ sevenPageTypes := by
  refine ⟨?_, ?_, ?_⟩ <;>
    simp only [h1h2PageTypeOfUrl, technicalPageTypeOfUrl, performancePageTypeOfUrl] <;>
    split_ifs <;> simp [sevenPageTypes]

/-- C4: the canonical title / meta-description length thresholds, on a
one-record dataset with the given field values.  A title is flagged long iff
`title_length > 60`, `ALTO` iff `> 70` else `MÉDIO`; a non-empty title with
`title_length < 30` is flagged short with `MÉDIO`; a meta description is
flagged long iff its length `> 160`, `ALTO` iff `≥ 180` else `MÉDIO`; a
non-empty one with length `< 120` is flagged short with `BAIXO`. -/
theorem c4_canonical_length_thresholds (u t md : String) (n w m : Int) :
    ((findLongTitleIssues
        (⟨["url", "title", "title_length", "title_words"],
          [[("url", Value.vs u), ("title", Value.vs t),
            ("title_length", Value.vi n), ("title_words", Value.vi w)]]⟩ : DataFrame)).map
      (fun i => i.criticidade) =
      if 60 < n then [if 70 < n then "ALTO" else "MÉDIO"] else []) ∧
    ((findShortTitleIssues
        (⟨["url", "title", "title_length", "title_words"],
          [[("url", Value.vs u), ("title", Value.vs t),
            ("title_length", Value.vi n), ("title_words", Value.vi w)]]⟩ : DataFrame)).map
      (fun i => i.criticidade) =
      if n < 30 ∧ t ≠ "" then ["MÉDIO"] else []) ∧
    ((findLongMetaIssues
        (⟨["url", "meta_description", "meta_description_length"],
          [[("url", Value.vs u), ("meta_description", Value.vs md),
            ("meta_description_length", Value.vi m)]]⟩ : DataFrame)).map
      (fun i => i.criticidade) =
      if 160 < m then [if m < 180 then "MÉDIO" else "ALTO"] else []) ∧
    ((findShortMetaIssues
        (⟨["url", "meta_description", "meta_description_length"],
          [[("url", Value.vs u), ("meta_description", Value.vs md),
            ("meta_description_length", Value.vi m)]]⟩ : DataFrame)).map
      (fun i => i.criticidade) =
      if m < 120 ∧ md ≠ "" then ["BAIXO"] else []) := by
  refine ⟨?_, ?_, ?_, ?_⟩
  · by_cases h1 : 60 < n
    · by_cases h2 : 70 < n <;>
        simp [findLongTitleIssues, safeFilterP, colI, getIntD, List.lookup, h1, h2]
    · simp [findLongTitleIssues, safeFilterP, colI, getIntD, List.lookup, h1]
  · by_cases h1 : n < 30 <;> by_cases h2 : t = "" <;>
      simp [findShortTitleIssues, safeFilterP, colI, colS, getIntD, getStrD, List.lookup, h1, h2]
  · by_cases h1 : 160 < m
    · by_cases h2 : m < 180 <;>
        simp [findLongMetaIssues, safeFilterP, colI, getIntD, List.lookup, h1, h2]
    · simp [findLongMetaIssues, safeFilterP, colI, getIntD, List.lookup, h1]
  · by_cases h1 : m < 120 <;> by_cases h2 : md = "" <;>
      simp [findShortMetaIssues, safeFilterP, colI, colS, getIntD, getStrD, List.lookup, h1, h2]

/-- C5: in a record set whose `title` column is present, every record bearing
a non-empty title shared by N ≥ 2 records is flagged with a duplicate-title
issue whose label embeds N and whose severity is ALTO iff N > 3, else MÉDIO. -/
theorem c5_duplicate_titles_flag_whole_group (df : DataFrame) (r : Row)
    (hc : df.cols.contains "title" = true) (hr : r ∈ df.rows)
    (ht : ¬ colS r "title" = "")
    (hN : 2 ≤ (df.rows.filter fun x => colS x "title" == colS r "title").length) :
    ∃ i ∈ findDuplicateTitleIssues df,
      i.url = getStrD r "url" "" ∧
      i.problema = "Título duplicado (" ++
        toString (df.rows.filter fun x => colS x "title" == colS r "title").length ++
        " páginas)" ∧
      i.criticidade =
        (if 3 < (df.rows.filter fun x => colS x "title" == colS r "title").length
          then "ALTO" else "MÉDIO") ∧
      i.title = colS r "title" := by
  have F1t :
      (df.rows.filter fun x => !(colS x "title" == "")).filter
        (fun x => colS x "title" == colS r "title") =
      df.rows.filter (fun x => colS x "title" == colS r "title") := by
    rw [List.filter_filter]
    apply List.filter_congr
    intro x _
    by_cases hxt : colS x "title" = colS r "title"
    · simp [hxt, ht]
    · simp [hxt]
  have F2 : r ∈ df.rows.filter fun x => !(colS x "title" == "") := by
    refine List.mem_filter.mpr ⟨hr, ?_⟩
    simp [ht]
  have F3 : r ∈ (df.rows.filter fun y => !(colS y "title" == "")).filter
      (fun y => decide (2 ≤ ((df.rows.filter fun z => !(colS z "title" == "")).filter
        (fun z => colS z "title" == colS y "title")).length)) := by
    refine List.mem_filter.mpr ⟨F2, ?_⟩
    rw [F1t]
    simpa using hN
  have F4 : ((df.rows.filter fun y => !(colS y "title" == "")).filter
        (fun y => decide (2 ≤ ((df.rows.filter fun z => !(colS z "title" == "")).filter
          (fun z => colS z "title" == colS y "title")).length))).filter
        (fun y => colS y "title" == colS r "title") =
      df.rows.filter (fun y => colS y "title" == colS r "title") := by
    rw [List.filter_filter]
    refine (List.filter_congr ?_).trans F1t
    intro a _
    by_cases hat : colS a "title" = colS r "title"
    · simp only [hat, beq_self_eq_true, Bool.true_and, Bool.and_true]
      rw [F1t]
      simpa using hN
    · simp [hat]
  have hkeymem : colS r "title" ∈ sortByB pyStrLeB
      (((df.rows.filter fun y => !(colS y "title" == "")).filter
        (fun y => decide (2 ≤ ((df.rows.filter fun z => !(colS z "title" == "")).filter
          (fun z => colS z "title" == colS y "title")).length))).map
        (fun y => colS y "title")).dedup :=
    ((sortByB_perm _ _).mem_iff).mpr
      (List.mem_dedup.mpr (List.mem_map.mpr ⟨r, F3, rfl⟩))
  have hne : (df.rows.filter fun x => !(colS x "title" == "")).isEmpty = false := by
    rw [List.isEmpty_eq_false]
    exact List.ne_nil_of_mem F2
  refine ⟨{ url := getStrD r "url" ""
            problema := "Título duplicado (" ++
              toString (df.rows.filter fun x => colS x "title" == colS r "title").length ++
              " páginas)"
            criticidade :=
              if 3 < (df.rows.filter fun x => colS x "title" == colS r "title").length
                then "ALTO" else "MÉDIO"
            title := colS r "title"
            title_length := getIntD r "title_length" 0
            title_words := getIntD r "title_words" 0
            recomendacao := "Criar título único para cada página"
            impacto_seo := "Google pode não indexar todas as páginas" }, ?_, rfl, rfl, rfl, rfl⟩
  simp only [findDuplicateTitleIssues, hc, not_true_eq_false, if_false, hne,
    Bool.false_eq_true]
  refine List.mem_flatMap.mpr ⟨colS r "title", hkeymem, ?_⟩
  rw [F4]
  refine List.mem_map.mpr ⟨r, List.mem_filter.mpr ⟨hr, by simp⟩, rfl⟩

/-- C5 witness: the theorem applied to two concrete records sharing title "X". -/
theorem c5_duplicate_titles_flag_whole_group_witness :
    wdfTitles.cols.contains "title" = true ∧
    wrowTitle ∈ wdfTitles.rows ∧
    ¬ colS wrowTitle "title" = "" ∧
    2 ≤ (wdfTitles.rows.filter fun x => colS x "title" == colS wrowTitle "title").length ∧
    (∃ i ∈ findDuplicateTitleIssues wdfTitles,
      i.url = getStrD wrowTitle "url" "" ∧
      i.problema = "Título duplicado (" ++
        toString (wdfTitles.rows.filter
          fun x => colS x "title" == colS wrowTitle "title").length ++ " páginas)" ∧
      i.criticidade =
        (if 3 < (wdfTitles.rows.filter
            fun x => colS x "title" == colS wrowTitle "title").length
          then "ALTO" else "MÉDIO") ∧
      i.title = colS wrowTitle "title") :=
  ⟨by decide, by decide, by decide, by decide,
    c5_duplicate_titles_flag_whole_group wdfTitles wrowTitle (by decide) (by decide)
      (by decide) (by decide)⟩

/-- C9: for a non-empty record set, the raw-data view's columns are the fixed
priority list restricted to the columns present, in declared order, followed
by the remaining columns sorted alphabetically. -/
theorem c9_raw_view_column_order (records : List Row) (h : records ≠ []) :
    ∃ re, exportResultsModel records = some re ∧
      ∃ rest,
        re.columns = (columnOrder.filter fun c => (dfColsOfRecords records).contains c) ++ rest ∧
        List.Sorted (fun a b => pyStrLeB a b = true) rest ∧
        rest.Perm ((dfColsOfRecords records).filter fun c => !columnOrder.contains c) := by
  refine ⟨⟨finalColumns (dfColsOfRecords records),
      records.map (rawRowOf (finalColumns (dfColsOfRecords records)))⟩, ?_, ?_⟩
  · unfold exportResultsModel
    rw [if_neg (by simp [List.isEmpty_iff, h])]
  · refine ⟨sortByB pyStrLeB ((dfColsOfRecords records).filter fun c => !columnOrder.contains c),
      rfl, ?_, ?_⟩
    · exact sortByB_sorted _ pyStrLeB_total pyStrLeB_trans _
    · exact sortByB_perm _ _

/-- C9 witness: the theorem applied to a concrete one-record crawl result. -/
theorem c9_raw_view_column_order_witness :
    wRecords ≠ [] ∧
    (∃ re, exportResultsModel wRecords = some re ∧
      ∃ rest,
        re.columns = (columnOrder.filter fun c => (dfColsOfRecords wRecords).contains c) ++ rest ∧
        List.Sorted (fun a b => pyStrLeB a b = true) rest ∧
        rest.Perm ((dfColsOfRecords wRecords).filter fun c => !columnOrder.contains c)) :=
  ⟨by decide, c9_raw_view_column_order wRecords (by decide)⟩

/-- C10: the common dataframe-export path ends with a per-url deduplication of
the sorted table, so the exported report has at most one row per url, and the
kept row for each url is placed no later by the criticality ordering than any
row bearing that url (it is the first, i.e. most severe, one). -/
theorem c10_export_dedups_to_most_severe_per_url (issues : List TitleIssue) :
    (titleExportFinal issues).Pairwise (fun a b => a.url ≠ b.url) ∧
    ∀ x ∈ titleExportConsolidated issues, ∃ y ∈ titleExportFinal issues,
      y.url = x.url ∧
        rankUrlLe (fun i : TitleIssue => i.criticidade) (fun i => i.url) y x = true := by
  constructor
  · exact dedupByKeys_pairwise (fun i : TitleIssue => i.url) _
  · intro x hx
    exact dedupByKeys_cover (fun i : TitleIssue => i.url) _
      (rankUrlLe_refl _ _) _ (sortByCriticality_sorted _ _ _) x hx

/-- C10 witness: the theorem applied to two concrete issues for the same url;
the MÉDIO row is covered by the kept CRÍTICO row. -/
theorem c10_export_dedups_to_most_severe_per_url_witness :
    (wTitleIssues.get ⟨0, by decide⟩) ∈ titleExportConsolidated wTitleIssues ∧
    (∃ y ∈ titleExportFinal wTitleIssues,
      y.url = (wTitleIssues.get ⟨0, by decide⟩).url ∧
        rankUrlLe (fun i : TitleIssue => i.criticidade) (fun i => i.url) y
          (wTitleIssues.get ⟨0, by decide⟩) = true) :=
  ⟨by decide,
    (c10_export_dedups_to_most_severe_per_url wTitleIssues).2
      (wTitleIssues.get ⟨0, by decide⟩) (by decide)⟩
